import Mathlib

/-!
Verification development for the ComfyAngel loop-node subsystem
(`src/nodes/loop_nodes.py` and `src/utils/loop_utils.py`).

The Python code is shallowly embedded:
* Python values flowing between nodes are modelled by the inductive `PyVal`
  (floats are not needed by any modelled code path and are omitted).
* `torch.Tensor` is modelled by its shape (list of dimension sizes) together
  with flattened integer data; the only tensor operations the loop code uses
  are leading-dimension slicing, `unsqueeze(0)` and `torch.cat(dim=0)`.
* Code that can raise is embedded in `Except String`.
* The host's `DynamicPrompt` / `GraphBuilder` interfaces (external to the
  repository) are modelled as association lists of nodes, per the host
  collaboration surface the code relies on.
-/

set_option maxRecDepth 4000

namespace ComfyAngel

/-- Model of `torch.Tensor`: a shape plus flattened data.
`dim()` is the length of the shape; `shape[0]` is the leading dimension. -/
structure Tensor where
  shape : List Nat
  data : List Int
  deriving Repr, DecidableEq

/-- `t.dim()` in torch. -/
def Tensor.dim (t : Tensor) : Nat := t.shape.length

/-- `t.unsqueeze(0)` in torch: insert a leading unit dimension. -/
def Tensor.unsqueeze0 (t : Tensor) : Tensor := ⟨1 :: t.shape, t.data⟩

/-- Size of one row (all dimensions but the leading one multiplied). -/
def Tensor.rowSize (t : Tensor) : Nat := t.shape.tail.foldl (· * ·) 1

/-- Python slice bound normalisation for `t[start:stop]` on the leading
dimension of size `n`: negative indices count from the end, and all bounds
are clamped into `[0, n]`; slicing never raises. -/
def sliceBound (n : Nat) (i : Int) : Nat :=
  if i < 0 then ((n : Int) + i).toNat else min i.toNat n

/-- `t[start:stop]` in torch (slice along the leading dimension). -/
def Tensor.slice0 (t : Tensor) (start stop : Int) : Tensor :=
  match t.shape with
  | [] => t
  | n :: rest =>
    let a := sliceBound n start
    let b := sliceBound n stop
    let cnt := b - a
    let rs := rest.foldl (· * ·) 1
    ⟨cnt :: rest, (t.data.drop (a * rs)).take (cnt * rs)⟩

/-- `torch.cat(ts, dim=0)`: requires a non-empty list of tensors of equal
rank at least 1 agreeing on all trailing dimensions; otherwise raises. -/
def Tensor.cat (ts : List Tensor) : Except String Tensor :=
  match ts with
  | [] => .error "expected a non-empty list of Tensors"
  | t :: rest =>
    match t.shape with
    | [] => .error "zero-dimensional tensor cannot be concatenated"
    | n :: tail =>
      if rest.all (fun u => u.shape.length > 0 && u.shape.tail == tail) then
        .ok ⟨(rest.foldl (fun acc u => acc + u.shape.headD 0) n) :: tail,
             rest.foldl (fun acc u => acc ++ u.data) t.data⟩
      else
        .error "Sizes of tensors must match except in dimension 0"

/-- Model of the Python values the loop nodes manipulate. -/
inductive PyVal where
  | none
  | int (n : Int)
  | bool (b : Bool)
  | str (s : String)
  | tensor (t : Tensor)
  | list (xs : List PyVal)
  | tuple (xs : List PyVal)
  deriving Repr

/-- `x is None` in Python. -/
def PyVal.isNone : PyVal → Bool
  | .none => true
  | _ => false

/-- `isinstance(x, torch.Tensor)` in Python. -/
def PyVal.isTensor : PyVal → Bool
  | .tensor _ => true
  | _ => false

/-- `isinstance(x, list)` in Python. -/
def PyVal.isList : PyVal → Bool
  | .list _ => true
  | _ => false

/-- Python sequence indexing `xs[i]`: negative indices count from the end;
out-of-range indices raise IndexError. -/
def pySeqGet (xs : List PyVal) (i : Int) : Except String PyVal :=
  let n : Int := xs.length
  let j := if i < 0 then n + i else i
  if 0 ≤ j ∧ j < n then
    .ok (xs.getD j.toNat .none)
  else
    .error "index out of range"

/-- `int(x)` in Python, for the value kinds modelled here. -/
def pyInt : PyVal → Except String Int
  | .int n => .ok n
  | .bool b => .ok (if b then 1 else 0)
  | .str s =>
    match s.toInt? with
    | some n => .ok n
    | Option.none => .error "invalid literal for int()"
  | _ => .error "int() argument error"

/-! ## `src/utils/loop_utils.py` -/

/-- `get_items_length(items)` from `src/utils/loop_utils.py`:
`None` → 0; tensor → `shape[0]` if `dim() > 0` else 1;
list/tuple → its length; anything else → 1. -/
def get_items_length : PyVal → Nat
  | .none => 0
  | .tensor t => if t.dim > 0 then t.shape.headD 0 else 1
  | .list xs => xs.length
  | .tuple xs => xs.length
  | _ => 1

/-- `get_item_at_index(items, index)` from `src/utils/loop_utils.py`. -/
def get_item_at_index (items : PyVal) (index : Int) : Except String PyVal :=
  match items with
  | .none => .ok .none
  | .tensor t =>
    if t.dim = 0 then .ok (.tensor t)
    else .ok (.tensor (t.slice0 index (index + 1)))
  | .list xs =>
    if xs.length = 0 then .ok .none else pySeqGet xs index
  | .tuple xs =>
    if xs.length = 0 then .ok .none else pySeqGet xs index
  | v => .ok v

/-- `torch.cat(existing, dim=0)` applied to a Python list of values: raises
(TypeError) unless every element is a tensor, then concatenates. -/
def catPyVals (xs : List PyVal) : Except String Tensor := do
  let ts ← xs.mapM (fun v =>
    match v with
    | .tensor t => Except.ok t
    | _ => Except.error "expected Tensor as element in list argument")
  Tensor.cat ts

/-- The tensor payload of a value (`none` when not a tensor). -/
def PyVal.asTensor : PyVal → Option Tensor
  | .tensor t => some t
  | _ => Option.none

/-- The element list of a Python `list` value (`none` when not a list). -/
def PyVal.asList : PyVal → Option (List PyVal)
  | .list xs => some xs
  | _ => Option.none

/-- The dimension-adjustment block of `accumulate_results`: when
`existing.dim() != new_item.dim()`, insert a leading unit dimension in the
3-versus-4 rank cases; otherwise leave both operands unchanged. -/
def promoteDims (te tn : Tensor) : Tensor × Tensor :=
  if te.dim ≠ tn.dim then
    if te.dim = 3 ∧ tn.dim = 4 then (te.unsqueeze0, tn)
    else if te.dim = 4 ∧ tn.dim = 3 then (te, tn.unsqueeze0)
    else (te, tn)
  else (te, tn)

/-- The `try` block of `accumulate_results`: stack the existing list with
`torch.cat`, then concatenate the new tensor onto the stack. -/
def tryStackConcat (l : List PyVal) (ni : PyVal) : Except String Tensor := do
  let stacked ← catPyVals l
  match ni.asTensor with
  | some tn => Tensor.cat [stacked, tn]
  | Option.none => Except.error "expected Tensor"

/-- `accumulate_results(existing, new_item)` from `src/utils/loop_utils.py`,
following the source's isinstance chain. The `try/except` around the
list-of-tensors concatenation is modelled by recovering from the error of
`tryStackConcat` and falling through to the list append. The source's
final two returns (`existing` a tensor with a non-tensor `new_item`, and
the catch-all) both produce `[existing, new_item]` and are merged into the
last arm; the empty-list case takes the generic list append. -/
def accumulate_results (existing new_item : PyVal) : Except String PyVal :=
  if new_item.isNone then .ok existing
  else if existing.isNone then
    match new_item.asTensor with
    | some t => .ok (.tensor t)
    | Option.none => .ok (.list [new_item])
  else
    match existing.asTensor, new_item.asTensor with
    | some te, some tn =>
      (Tensor.cat [(promoteDims te tn).1, (promoteDims te tn).2]).map
        PyVal.tensor
    | _, _ =>
      match existing.asList with
      | some (x :: xs) =>
        if x.isTensor && new_item.isTensor then
          match tryStackConcat (x :: xs) new_item with
          | .ok t => .ok (.tensor t)
          | .error _ => .ok (.list ((x :: xs) ++ [new_item]))
        else .ok (.list ((x :: xs) ++ [new_item]))
      | some [] => .ok (.list [new_item])
      | Option.none => .ok (.list [existing, new_item])

/-! ## Loop Start nodes (`src/nodes/loop_nodes.py`) -/

def MAX_SLOTS : Nat := 10

/-- The single-tensor unwrap at the top of both `loop_start` variants:
`if isinstance(items, list) and len(items) == 1 and isinstance(items[0],
torch.Tensor): items = items[0]`. -/
def unwrapItems (items : PyVal) : PyVal :=
  match items with
  | .list [.tensor t] => .tensor t
  | v => v

/-- Hidden-input unwrap used by `loop_start`:
`if isinstance(x, list): x = x[0] if x else None`. -/
def listUnwrap (v : PyVal) : PyVal :=
  match v with
  | .list [] => .none
  | .list (x :: _) => x
  | w => w

/-- The `_index` normalisation performed by both `loop_start` variants:
list-unwrap, then `index = 0 if _index is None else int(_index)`. -/
def resolveIndex (v : PyVal) : Except String Int :=
  let v := listUnwrap v
  if v.isNone then .ok 0 else pyInt v

/-- The packed `flow_state` dict produced by `LoopStartSimple.loop_start`
(`"type": "loop_flow"` plus index and the two accumulators), modelled as a
record since its keys are fixed. -/
structure SimpleFlowState where
  index : Int
  acc1 : PyVal
  acc2 : PyVal
  deriving Repr

/-- The output tuple `(flow_state, item)` of `LoopStartSimple.loop_start`. -/
structure LoopStartSimpleOut where
  flow : SimpleFlowState
  item : PyVal
  deriving Repr

/-- `LoopStartSimple.loop_start` from `src/nodes/loop_nodes.py`. -/
def LoopStartSimple.loop_start (items _index _accumulated1 _accumulated2 : PyVal) :
    Except String LoopStartSimpleOut := do
  let items := unwrapItems items
  let acc1 := listUnwrap _accumulated1
  let acc2 := listUnwrap _accumulated2
  let index ← resolveIndex _index
  let total := get_items_length items
  if total = 0 then Except.error "Cannot loop over empty items" else do
  let item ← get_item_at_index items (min index ((total : Int) - 1))
  return ⟨⟨index, acc1, acc2⟩, item⟩

/-- The output tuple of `LoopStartAdvanced.loop_start`:
`("loop_flow", item, index, total, is_last, value0..value9)`. -/
structure LoopStartAdvOut where
  flow : String
  item : PyVal
  index : Int
  total : Nat
  is_last : Bool
  values : List PyVal
  deriving Repr

/-- `kwargs.get(k)` with Python's `None` default. -/
def kwGet (kwargs : List (String × PyVal)) (k : String) : PyVal :=
  ((kwargs.find? (fun p => p.1 == k)).map (·.2)).getD .none

/-- The per-slot unwrap in `LoopStartAdvanced.loop_start`:
a one-element list is unwrapped, an empty list becomes `None`. -/
def slotUnwrap (v : PyVal) : PyVal :=
  match v with
  | .list [x] => x
  | .list [] => .none
  | w => w

/-- `LoopStartAdvanced.loop_start` from `src/nodes/loop_nodes.py`. -/
def LoopStartAdvanced.loop_start (items _index : PyVal)
    (kwargs : List (String × PyVal)) : Except String LoopStartAdvOut := do
  let items := unwrapItems items
  let index ← resolveIndex _index
  let total := get_items_length items
  if total = 0 then Except.error "Cannot loop over empty items" else do
  let item ← get_item_at_index items (min index ((total : Int) - 1))
  let is_last := decide (index ≥ (total : Int) - 1)
  let values := (List.range MAX_SLOTS).map
    (fun i => slotUnwrap (kwGet kwargs ("initial_value" ++ toString i)))
  return ⟨"loop_flow", item, index, total, is_last, values⟩

/-! ## `MathInt` helper node (`src/nodes/loop_nodes.py`) -/

/-- Python floor division `x // y`: raises ZeroDivisionError when `y = 0`. -/
def pyFloorDiv (x y : Int) : Except String Int :=
  if y = 0 then .error "integer division or modulo by zero"
  else .ok (Int.fdiv x y)

/-- Python modulo `x % y`: raises ZeroDivisionError when `y = 0`. -/
def pyMod (x y : Int) : Except String Int :=
  if y = 0 then .error "integer division or modulo by zero"
  else .ok (Int.fmod x y)

/-- `MathInt.math_op` from `src/nodes/loop_nodes.py`: the `ops` dict,
with the divide/modulo lambdas guarding `y != 0` and returning 0 otherwise;
an operation name outside the dict raises KeyError. -/
def MathInt.math_op (a b : Int) (operation : String) : Except String Int :=
  if operation = "add" then .ok (a + b)
  else if operation = "subtract" then .ok (a - b)
  else if operation = "multiply" then .ok (a * b)
  else if operation = "divide" then (if b ≠ 0 then pyFloorDiv a b else .ok 0)
  else if operation = "modulo" then (if b ≠ 0 then pyMod a b else .ok 0)
  else .error "KeyError"

/-! ## Host graph model (`DynamicPrompt` / `GraphBuilder` interfaces)

The loop controllers consume the host's live-graph introspection and
fragment-builder primitives (spec section 6). They are modelled here as
association lists of nodes. An input binding is either a link
`[producer_id, output_slot]` (what `is_link` recognises) or a literal. -/

/-- An input binding of a graph node. -/
inductive InputVal where
  | link (nid : String) (slot : Nat)
  | val (v : PyVal)
  deriving Repr

/-- A node of the host's live graph as returned by `dynprompt.get_node`:
its `class_type` and its insertion-ordered `inputs` dict. -/
structure NodeInfo where
  class_type : String
  inputs : List (String × InputVal)
  deriving Repr

/-- The host's `DynamicPrompt`: the live node map plus the display-id
redirection consulted by `get_display_node_id` (identity when absent). -/
structure DynPrompt where
  nodes : List (String × NodeInfo)
  display : List (String × String)
  deriving Repr

/-- `dynprompt.get_node(id)`; `none` models the NodeNotFoundError raise. -/
def DynPrompt.getNode (dp : DynPrompt) (id : String) : Option NodeInfo :=
  (dp.nodes.find? (fun p => p.1 == id)).map (·.2)

/-- `dynprompt.get_display_node_id(id)`. -/
def DynPrompt.displayId (dp : DynPrompt) (id : String) : String :=
  (((dp.display.find? (fun p => p.1 == id)).map (·.2))).getD id

/-- Whether `needle` is a leading segment of `hay` (on character lists). -/
def charListStartsWith : List Char → List Char → Bool
  | _, [] => true
  | [], _ :: _ => false
  | c :: cs, d :: ds => c == d && charListStartsWith cs ds

/-- Whether `needle` occurs as a contiguous segment of `hay`. -/
def charListContains : List Char → List Char → Bool
  | [], needle => needle.isEmpty
  | c :: cs, needle =>
    charListStartsWith (c :: cs) needle || charListContains cs needle

/-- Python's substring test `needle in hay`. -/
def strContains (hay needle : String) : Bool :=
  charListContains hay.toList needle.toList

/-! ## Dependency-Closure Walker
(`explore_dependencies` / `collect_contained`, identical method bodies in
`WhileLoopEndSimple` and `WhileLoopEndAdvanced`) -/

/-- State threaded through `explore_dependencies`: the prompt it reads, the
`upstream` parent→children adjacency dict, the `parent_ids` list, and a
pending-exception marker (a host lookup raise aborts the walk). -/
structure WalkSt where
  dp : DynPrompt
  upstream : List (String × List String)
  parents : List String
  err : Option String
  deriving Repr

/-- `id in upstream`. -/
def upstreamHas (u : List (String × List String)) (id : String) : Bool :=
  u.any (fun p => p.1 == id)

/-- `upstream[id]` (empty when absent). -/
def upstreamChildren (u : List (String × List String)) (id : String) :
    List String :=
  (((u.find? (fun p => p.1 == id)).map (·.2))).getD []

/-- `upstream[id].append(child)`. -/
def upstreamAppend (u : List (String × List String)) (id child : String) :
    List (String × List String) :=
  u.map (fun p => if p.1 == id then (p.1, p.2 ++ [child]) else p)

/-- One step of the `for k, v in node_info["inputs"].items()` loop body of
`explore_dependencies`, parameterised by the recursive call. A producer
whose displayed `class_type` contains `"LoopEnd"` or `"WhileLoopEnd"` is
not appended to `parent_ids`, but the walk still recurses into it. -/
def exploreStep (recurse : String → WalkSt → WalkSt) (nid : String)
    (st : WalkSt) (kv : String × InputVal) : WalkSt :=
  if st.err.isSome then st else
  match kv.2 with
  | .val _ => st
  | .link parent_id _ =>
    let display_id := st.dp.displayId parent_id
    match st.dp.getNode display_id with
    | Option.none => { st with err := some "NodeNotFoundError" }
    | some dnode =>
      let st :=
        if !strContains dnode.class_type "LoopEnd"
            && !strContains dnode.class_type "WhileLoopEnd" then
          { st with parents := st.parents ++ [display_id] }
        else st
      let st :=
        if upstreamHas st.upstream parent_id then st
        else recurse parent_id
          { st with upstream := st.upstream ++ [(parent_id, [])] }
      if st.err.isSome then st
      else { st with upstream := upstreamAppend st.upstream parent_id nid }

/-- `explore_dependencies(node_id, dynprompt, upstream, parent_ids)`.
`fuel` bounds the recursion depth; each recursive call is guarded by
inserting a fresh key into `upstream`, so any fuel at least the number of
graph nodes plus one is enough on the graphs the host supplies. -/
def exploreDependencies : Nat → String → WalkSt → WalkSt
  | 0, _, st => st
  | Nat.succ fuel, nid, st =>
    if st.err.isSome then st else
    match st.dp.getNode nid with
    | Option.none => { st with err := some "NodeNotFoundError" }
    | some info =>
      info.inputs.foldl
        (exploreStep (fun pid st2 => exploreDependencies fuel pid st2) nid) st

/-- `collect_contained(node_id, upstream, contained)`; `contained` is the
insertion-ordered key list of the Python dict. -/
def collectContained (upstream : List (String × List String)) :
    Nat → String → List String → List String
  | 0, _, contained => contained
  | Nat.succ fuel, nid, contained =>
    if upstreamHas upstream nid then
      (upstreamChildren upstream nid).foldl
        (fun acc child =>
          if acc.contains child then acc
          else collectContained upstream fuel child (acc ++ [child]))
        contained
    else contained

/-- `contained[key] = True` on the dict's key list (an existing key keeps
its position). -/
def dictSetTrue (contained : List String) (k : String) : List String :=
  if contained.contains k then contained else contained ++ [k]

/-- The full walker invocation as `while_end` performs it: backward walk
from the controller id, then forward collection seeded at the Loop Start
id, then forcing the controller's and Loop Start's ids into the set.
Returns `none` when a host lookup raised during the backward walk. -/
def walkerClosure (dp : DynPrompt) (fuel : Nat) (uid startId : String) :
    Option (List String) :=
  let st := exploreDependencies fuel uid ⟨dp, [], [], Option.none⟩
  match st.err with
  | some _ => Option.none
  | Option.none =>
    let contained0 := collectContained st.upstream fuel startId []
    some (dictSetTrue (dictSetTrue contained0 uid) startId)

/-! ## Graph fragment builder model -/

/-- A node of a fragment under construction (`GraphBuilder` node). -/
structure FragNode where
  id : String
  class_type : String
  displayOverride : Option String
  inputs : List (String × InputVal)
  deriving Repr

/-- The host's `GraphBuilder`: created nodes in order plus a counter for
generated ids. -/
structure GB where
  nodes : List FragNode
  counter : Nat
  deriving Repr

/-- `graph.node(class_type, id=None, **kwargs)`: create a node, generating
a fresh id when none is given; returns the builder and the node's id. -/
def GB.node (g : GB) (ct : String) (id : Option String)
    (inputs : List (String × InputVal)) : GB × String :=
  let nid := match id with
    | some s => s
    | Option.none => "gen" ++ toString g.counter
  (⟨g.nodes ++ [⟨nid, ct, Option.none, inputs⟩], g.counter + 1⟩, nid)

/-- `graph.lookup_node(id)` (KeyError when absent). -/
def GB.lookupNode (g : GB) (id : String) : Except String FragNode :=
  match g.nodes.find? (fun n => n.id == id) with
  | some n => .ok n
  | Option.none => .error "KeyError"

/-- Dict update: overwrite the value at an existing key, else append. -/
def setKey (l : List (String × InputVal)) (k : String) (v : InputVal) :
    List (String × InputVal) :=
  if l.any (fun p => p.1 == k) then
    l.map (fun p => if p.1 == k then (p.1, v) else p)
  else l ++ [(k, v)]

/-- `node.set_input(k, v)` on the fragment node with the given id. -/
def GB.setInput (g : GB) (id k : String) (v : InputVal) : GB :=
  ⟨g.nodes.map (fun n =>
    if n.id == id then { n with inputs := setKey n.inputs k v } else n),
   g.counter⟩

/-- `node.set_override_display_id(d)` on the fragment node with the given
id. -/
def GB.setDisplayOverride (g : GB) (id d : String) : GB :=
  ⟨g.nodes.map (fun n =>
    if n.id == id then { n with displayOverride := some d } else n),
   g.counter⟩

/-! ## While-loop controllers -/

/-- The two clone-building passes that appear verbatim in both
`WhileLoopEndSimple.while_end` and `WhileLoopEndAdvanced.while_end`:
first create one fragment node per contained id (the controller's own
clone is named "Recurse") with its display override, then copy every
input, rewiring links whose producer is itself contained to the
corresponding fragment node's output. -/
def buildClones (dp : DynPrompt) (uid : String) (contained : List String) :
    Except String GB := do
  let g0 : GB := ⟨[], 0⟩
  let g1 ← contained.foldlM (fun (g : GB) nid => do
    match dp.getNode nid with
    | Option.none => Except.error "NodeNotFoundError"
    | some orig =>
      let fid := if nid == uid then "Recurse" else nid
      let (g, fid) := g.node orig.class_type (some fid) []
      pure (g.setDisplayOverride fid nid)) g0
  contained.foldlM (fun (g : GB) nid => do
    match dp.getNode nid with
    | Option.none => Except.error "NodeNotFoundError"
    | some orig =>
      let fid := if nid == uid then "Recurse" else nid
      let _node ← g.lookupNode fid
      orig.inputs.foldlM (fun (g : GB) kv => do
        match kv.2 with
        | .link pid slot =>
          if contained.contains pid then do
            let parent ← g.lookupNode pid
            pure (g.setInput fid kv.1 (.link parent.id slot))
          else pure (g.setInput fid kv.1 kv.2)
        | v => pure (g.setInput fid kv.1 v)) g) g1

/-- The result of a while-loop controller call: either terminate with the
accumulated values as the node's final output, or expand into a fragment,
with the result phrased as links to the recursive clone's outputs. -/
inductive WhileResult (α β : Type) where
  | final (out : α)
  | expand (out : β) (fragment : List FragNode)
  deriving Repr

/-- `WhileLoopEndSimple.while_end` from `src/nodes/loop_nodes.py`. -/
def WhileLoopEndSimple.while_end (fuel : Nat) (flow : String × Nat)
    (condition : Bool) (next_index : Int)
    (accumulated1 accumulated2 : PyVal) (dp : DynPrompt) (uid : String) :
    Except String (WhileResult (PyVal × PyVal) (InputVal × InputVal)) := do
  if !condition then
    return .final (accumulated1, accumulated2)
  let loop_start_id := flow.1
  let st := exploreDependencies fuel uid ⟨dp, [], [], Option.none⟩
  match st.err with
  | some e => Except.error e
  | Option.none =>
    let contained0 := collectContained st.upstream fuel loop_start_id []
    let contained := dictSetTrue (dictSetTrue contained0 uid) loop_start_id
    let g ← buildClones dp uid contained
    let _ls ← g.lookupNode loop_start_id
    let g := g.setInput loop_start_id "_index" (.val (.int next_index))
    let g := g.setInput loop_start_id "_accumulated1" (.val accumulated1)
    let g := g.setInput loop_start_id "_accumulated2" (.val accumulated2)
    let _myClone ← g.lookupNode "Recurse"
    return .expand (.link "Recurse" 0, .link "Recurse" 1) g.nodes

/-- `WhileLoopEndAdvanced.while_end` from `src/nodes/loop_nodes.py`. -/
def WhileLoopEndAdvanced.while_end (fuel : Nat) (flow : String × Nat)
    (condition : Bool) (next_index : Int)
    (kwargs : List (String × PyVal)) (dp : DynPrompt) (uid : String) :
    Except String (WhileResult (List PyVal) (List InputVal)) := do
  let values := (List.range MAX_SLOTS).map
    (fun i => kwGet kwargs ("initial_value" ++ toString i))
  if !condition then
    return .final values
  let loop_start_id := flow.1
  let st := exploreDependencies fuel uid ⟨dp, [], [], Option.none⟩
  match st.err with
  | some e => Except.error e
  | Option.none =>
    let contained0 := collectContained st.upstream fuel loop_start_id []
    let contained := dictSetTrue (dictSetTrue contained0 uid) loop_start_id
    let g ← buildClones dp uid contained
    let _ls ← g.lookupNode loop_start_id
    let g := g.setInput loop_start_id "_index" (.val (.int next_index))
    let g := (List.range MAX_SLOTS).foldl (fun (g : GB) i =>
      g.setInput loop_start_id ("initial_value" ++ toString i)
        (.val (kwGet kwargs ("initial_value" ++ toString i)))) g
    let _myClone ← g.lookupNode "Recurse"
    return .expand ((List.range MAX_SLOTS).map (fun i => .link "Recurse" i))
      g.nodes

/-! ## Loop End nodes -/

/-- `kwargs.get(k)` over raw-link keyword arguments. -/
def kwFind (kwargs : List (String × InputVal)) (k : String) :
    Option InputVal :=
  (kwargs.find? (fun p => p.1 == k)).map (·.2)

/-- `LoopEndSimple.loop_end` from `src/nodes/loop_nodes.py`: validates the
flow token's origin node kind, then builds the bookkeeping fragment
(GetLength, FlowStateExtractor, MathInt add, Compare, optional Accumulate
nodes and the WhileLoopEndSimple controller) and returns its result links
plus the finalized fragment. -/
def LoopEndSimple.loop_end (hasGraphUtils : Bool) (flow : String × Nat)
    (result1 result2 : Option InputVal) (dp : DynPrompt) (_uid : String) :
    Except String ((InputVal × InputVal) × List FragNode) := do
  if !hasGraphUtils then
    Except.error "Loop nodes require ComfyUI with comfy_execution module."
  else do
  let loop_start_id := flow.1
  let loop_start_node ← match dp.getNode loop_start_id with
    | some n => pure n
    | Option.none => Except.error "NodeNotFoundError"
  if loop_start_node.class_type ≠ "ComfyAngel_LoopStartSimple" then
    Except.error "flow must be connected from Loop Start node"
  else do
  let items_input :=
    (((loop_start_node.inputs.find? (fun p => p.1 == "items")).map
      (·.2))).getD (.val .none)
  let g : GB := ⟨[], 0⟩
  let (g, totalId) := g.node "ComfyAngel_GetLength" Option.none
    [("items", items_input)]
  let flow_value : InputVal := .link loop_start_id 0
  let (g, seId) := g.node "ComfyAngel_FlowStateExtractor" Option.none
    [("flow_state", flow_value)]
  let (g, addId) := g.node "ComfyAngel_MathInt" Option.none
    [("operation", .val (.str "add")), ("a", .link seId 0),
     ("b", .val (.int 1))]
  let (g, condId) := g.node "ComfyAngel_Compare" Option.none
    [("a", .link addId 0), ("b", .link totalId 0),
     ("comparison", .val (.str "a < b"))]
  let (g, acc1) := match result1 with
    | some r =>
      let (g, aId) := g.node "ComfyAngel_Accumulate" Option.none
        [("existing", .link seId 1), ("new_item", r)]
      (g, InputVal.link aId 0)
    | Option.none => (g, InputVal.link seId 1)
  let (g, acc2) := match result2 with
    | some r =>
      let (g, aId) := g.node "ComfyAngel_Accumulate" Option.none
        [("existing", .link seId 2), ("new_item", r)]
      (g, InputVal.link aId 0)
    | Option.none => (g, InputVal.link seId 2)
  let (g, weId) := g.node "ComfyAngel_WhileLoopEndSimple" Option.none
    [("flow", .link flow.1 flow.2), ("condition", .link condId 0),
     ("next_index", .link addId 0), ("accumulated1", acc1),
     ("accumulated2", acc2)]
  return ((.link weId 0, .link weId 1), g.nodes)

/-- `LoopEndAdvanced.loop_end` from `src/nodes/loop_nodes.py`. -/
def LoopEndAdvanced.loop_end (hasGraphUtils : Bool) (flow : String × Nat)
    (kwargs : List (String × InputVal)) (dp : DynPrompt) (_uid : String) :
    Except String (List InputVal × List FragNode) := do
  if !hasGraphUtils then
    Except.error "Loop nodes require ComfyUI with comfy_execution module."
  else do
  let loop_start_id := flow.1
  let loop_start_node ← match dp.getNode loop_start_id with
    | some n => pure n
    | Option.none => Except.error "NodeNotFoundError"
  if loop_start_node.class_type ≠ "ComfyAngel_LoopStartAdvanced" then
    Except.error "flow must be connected from Loop Start (Advanced) node"
  else do
  let items_input :=
    (((loop_start_node.inputs.find? (fun p => p.1 == "items")).map
      (·.2))).getD (.val .none)
  let g : GB := ⟨[], 0⟩
  let (g, totalId) := g.node "ComfyAngel_GetLength" Option.none
    [("items", items_input)]
  let (g, addId) := g.node "ComfyAngel_MathInt" Option.none
    [("operation", .val (.str "add")), ("a", .link loop_start_id 2),
     ("b", .val (.int 1))]
  let (g, condId) := g.node "ComfyAngel_Compare" Option.none
    [("a", .link addId 0), ("b", .link totalId 0),
     ("comparison", .val (.str "a < b"))]
  let valueOutputOffset := 5
  let (g, accumulated) := (List.range MAX_SLOTS).foldl
    (fun (p : GB × List (String × InputVal)) i =>
      let (g, acc) := p
      let prev : InputVal := .link loop_start_id (valueOutputOffset + i)
      match kwFind kwargs ("result" ++ toString i) with
      | some r =>
        let (g, aId) := g.node "ComfyAngel_Accumulate" Option.none
          [("existing", prev), ("new_item", r)]
        (g, acc ++ [("initial_value" ++ toString i, InputVal.link aId 0)])
      | Option.none =>
        (g, acc ++ [("initial_value" ++ toString i, prev)]))
    (g, [])
  let (g, weId) := g.node "ComfyAngel_WhileLoopEndAdvanced" Option.none
    ([("flow", .link flow.1 flow.2), ("condition", .link condId 0),
      ("next_index", .link addId 0)] ++ accumulated)
  return ((List.range MAX_SLOTS).map (fun i => .link weId i), g.nodes)

/-- Whether the node displayed at `id` is a loop-terminal controller in the
sense of the walker's boundary check: its `class_type` contains
`"LoopEnd"` or `"WhileLoopEnd"`. -/
def isBoundaryNode (dp : DynPrompt) (id : String) : Bool :=
  match dp.getNode id with
  | some n =>
    strContains n.class_type "LoopEnd"
      || strContains n.class_type "WhileLoopEnd"
  | Option.none => false

/-- Probe graph for the walker's boundary treatment: the controller `W`
consumes another loop's terminal controller `B` (whose class name contains
"LoopEnd"), and `B` itself consumes an ordinary producer `X`. -/
def boundaryProbeGraph : DynPrompt :=
  ⟨[("W", ⟨"ComfyAngel_WhileLoopEndSimple", [("condition", .link "B" 0)]⟩),
    ("B", ⟨"ComfyAngel_LoopEndSimple", [("x", .link "X" 0)]⟩),
    ("X", ⟨"Other", []⟩)], []⟩

/-- Rank-2 tensor fixture (shape `[2, 2]`). -/
def tensorRank2 : Tensor := ⟨[2, 2], [0, 0, 0, 0]⟩

/-- Rank-3 tensor fixture (shape `[2, 2, 2]`). -/
def tensorRank3 : Tensor := ⟨[2, 2, 2], [1, 1, 1, 1, 1, 1, 1, 1]⟩

/-- Graph fixture in which a flow token's origin node is not a Loop Start
of any kind. -/
def wrongOriginGraph : DynPrompt :=
  ⟨[("ls", ⟨"SomeOtherNode", []⟩)], []⟩

/-! # Theorems -/

theorem except_bind_ok {α β : Type} (x : α) (f : α → Except String β) :
    (Except.ok x : Except String α) >>= f = f x := rfl

theorem except_bind_error {α β : Type} (e : String)
    (f : α → Except String β) :
    (Except.error e : Except String α) >>= f = Except.error e := rfl

/-- C10: `MathInt.math_op` on any `a` with `b = 0` and operation `"divide"`
or `"modulo"` returns 0 and never raises: the division-by-zero raise in
`pyFloorDiv` / `pyMod` is unreachable because the two lambdas guard on
`y != 0`. -/
theorem claim10_mathint_div_zero_safe (a : Int) :
    MathInt.math_op a 0 "divide" = .ok 0
      ∧ MathInt.math_op a 0 "modulo" = .ok 0 :=
  ⟨rfl, rfl⟩

/-- C7 counterexample: `get_items_length` maps `None` to 0, not to 1 as the
claim's "1 for anything else" requires for every non-tensor non-sequence
input. -/
theorem claim7_counterexample :
    get_items_length PyVal.none = 0 ∧ get_items_length PyVal.none ≠ 1 := by
  decide

/-- C7 amended: `get_items_length` returns the leading dimension for a
tensor of rank ≥ 1, the length for a list or tuple, 0 for `None`, and 1
for anything else (including rank-0 tensors). -/
theorem claim7_amended :
    get_items_length PyVal.none = 0
      ∧ (∀ t : Tensor, 1 ≤ t.dim →
          get_items_length (.tensor t) = t.shape.headD 0)
      ∧ (∀ xs, get_items_length (.list xs) = xs.length)
      ∧ (∀ xs, get_items_length (.tuple xs) = xs.length)
      ∧ (∀ t : Tensor, t.dim = 0 → get_items_length (.tensor t) = 1)
      ∧ (∀ n, get_items_length (.int n) = 1)
      ∧ (∀ b, get_items_length (.bool b) = 1)
      ∧ (∀ s, get_items_length (.str s) = 1) := by
  refine ⟨rfl, ?_, fun xs => rfl, fun xs => rfl, ?_, fun n => rfl,
    fun b => rfl, fun s => rfl⟩
  · intro t ht
    have hpos : t.dim > 0 := ht
    simp only [get_items_length]
    rw [if_pos hpos]
  · intro t ht
    simp [get_items_length, ht]

/-- Witness for the amended C7 at concrete inputs of each hypothesis-bearing
kind. -/
theorem claim7_amended_witness :
    get_items_length (.tensor ⟨[2, 2], [0, 0, 0, 0]⟩) = 2
      ∧ get_items_length (.tensor ⟨[], [5]⟩) = 1 :=
  ⟨claim7_amended.2.1 ⟨[2, 2], [0, 0, 0, 0]⟩ (by decide),
   claim7_amended.2.2.2.2.1 ⟨[], [5]⟩ (by decide)⟩

/-- C6 counterexample: for ranks 2 and 3 `accumulate_results` inserts no
leading unit dimension; the concatenation is attempted on mismatched ranks
and raises — whereas the promotion the claim describes would have
succeeded (second conjunct). -/
theorem claim6_counterexample :
    accumulate_results (.tensor tensorRank2) (.tensor tensorRank3)
        = .error "Sizes of tensors must match except in dimension 0"
      ∧ (Tensor.cat [tensorRank2.unsqueeze0, tensorRank3]).isOk = true :=
  ⟨rfl, rfl⟩

/-- Helper: concatenating two tensors of different rank always raises. -/
theorem cat_rank_mismatch (te tn : Tensor) (h : te.dim ≠ tn.dim) :
    (Tensor.cat [te, tn]).isOk = false := by
  rcases hte : te.shape with _ | ⟨n, tail⟩
  · simp [Tensor.cat, hte, Except.isOk, Except.toBool]
  · rcases htn : tn.shape with _ | ⟨m, tail2⟩
    · simp [Tensor.cat, hte, htn, Except.isOk, Except.toBool]
    · have hne : tail2 ≠ tail := by
        intro hEq
        apply h
        simp [Tensor.dim, hte, htn, hEq]
      simp [Tensor.cat, hte, htn, hne, Except.isOk, Except.toBool]

/-- C6 amended: the rank auto-promotion in `accumulate_results` happens
only when the two ranks are exactly 3 and 4 (in either order); any other
pair of differing ranks is concatenated unpromoted, and that concatenation
always fails. -/
theorem claim6_amended (te tn : Tensor) :
    (te.dim = 3 → tn.dim = 4 →
      accumulate_results (.tensor te) (.tensor tn)
        = (Tensor.cat [te.unsqueeze0, tn]).map PyVal.tensor)
    ∧ (te.dim = 4 → tn.dim = 3 →
      accumulate_results (.tensor te) (.tensor tn)
        = (Tensor.cat [te, tn.unsqueeze0]).map PyVal.tensor)
    ∧ (te.dim ≠ tn.dim → ¬(te.dim = 3 ∧ tn.dim = 4) →
        ¬(te.dim = 4 ∧ tn.dim = 3) →
      accumulate_results (.tensor te) (.tensor tn)
          = (Tensor.cat [te, tn]).map PyVal.tensor
        ∧ (Tensor.cat [te, tn]).isOk = false) := by
  refine ⟨?_, ?_, ?_⟩
  · intro h3 h4
    simp [accumulate_results, PyVal.isNone, PyVal.asTensor, promoteDims,
      h3, h4]
  · intro h4 h3
    simp [accumulate_results, PyVal.isNone, PyVal.asTensor, promoteDims,
      h4, h3]
  · intro hne h34 h43
    refine ⟨?_, cat_rank_mismatch te tn hne⟩
    simp [accumulate_results, PyVal.isNone, PyVal.asTensor, promoteDims,
      hne, h34, h43]

/-- Witness for the amended C6: a 3-rank/4-rank pair is promoted and
concatenated; a 2-rank/3-rank pair is rejected. -/
theorem claim6_amended_witness :
    accumulate_results (.tensor ⟨[2, 2, 2], [1, 1, 1, 1, 1, 1, 1, 1]⟩)
        (.tensor ⟨[1, 2, 2, 2], [2, 2, 2, 2, 2, 2, 2, 2]⟩)
      = .ok (.tensor ⟨[2, 2, 2, 2],
          [1, 1, 1, 1, 1, 1, 1, 1, 2, 2, 2, 2, 2, 2, 2, 2]⟩)
      ∧ (Tensor.cat [tensorRank2, tensorRank3]).isOk = false := by
  constructor
  · rw [(claim6_amended ⟨[2, 2, 2], [1, 1, 1, 1, 1, 1, 1, 1]⟩
      ⟨[1, 2, 2, 2], [2, 2, 2, 2, 2, 2, 2, 2]⟩).1 (by decide) (by decide)]
    rfl
  · exact ((claim6_amended tensorRank2 tensorRank3).2.2 (by decide)
      (by decide) (by decide)).2

/-- C5: folding three non-absent, non-tensor values into an absent
accumulator yields the list `[a, b, c]` in order, through the single-item
representation after the first fold. -/
theorem claim5_accumulate_order (a b c : PyVal)
    (hna : a.isNone = false) (hnb : b.isNone = false)
    (hnc : c.isNone = false) (hta : a.isTensor = false)
    (htb : b.isTensor = false) (htc : c.isTensor = false) :
    (accumulate_results .none a >>= fun r1 =>
      accumulate_results r1 b >>= fun r2 =>
        accumulate_results r2 c) = .ok (.list [a, b, c]) := by
  have h1 : accumulate_results .none a = .ok (.list [a]) := by
    cases a <;> simp_all [accumulate_results, PyVal.isNone, PyVal.isTensor,
      PyVal.asTensor, PyVal.asList]
  have h2 : accumulate_results (.list [a]) b = .ok (.list [a, b]) := by
    cases b <;> simp_all [accumulate_results, PyVal.isNone, PyVal.isTensor,
      PyVal.asTensor, PyVal.asList]
  have h3 : accumulate_results (.list [a, b]) c = .ok (.list [a, b, c]) := by
    cases c <;> simp_all [accumulate_results, PyVal.isNone, PyVal.isTensor,
      PyVal.asTensor, PyVal.asList]
  rw [h1, except_bind_ok, h2, except_bind_ok, h3]

/-- Witness for C5 at three concrete non-tensor values. -/
theorem claim5_witness :
    (accumulate_results .none (.int 10) >>= fun r1 =>
      accumulate_results r1 (.str "x") >>= fun r2 =>
        accumulate_results r2 (.bool true))
      = .ok (.list [.int 10, .str "x", .bool true]) :=
  claim5_accumulate_order (.int 10) (.str "x") (.bool true)
    rfl rfl rfl rfl rfl rfl

/-- C2: with an Iteration Source whose computed length is 0, both Loop
Start variants raise before producing any output. -/
theorem claim2_loop_start_empty_source_fatal
    (items _index _acc1 _acc2 : PyVal) (kwargs : List (String × PyVal))
    (h : get_items_length (unwrapItems items) = 0) :
    (LoopStartSimple.loop_start items _index _acc1 _acc2).isOk = false
      ∧ (LoopStartAdvanced.loop_start items _index kwargs).isOk = false := by
  constructor
  · unfold LoopStartSimple.loop_start
    cases hr : resolveIndex _index with
    | error e => simp [hr, except_bind_error, Except.isOk, Except.toBool]
    | ok idx => simp [hr, except_bind_ok, h, Except.isOk, Except.toBool]
  · unfold LoopStartAdvanced.loop_start
    cases hr : resolveIndex _index with
    | error e => simp [hr, except_bind_error, Except.isOk, Except.toBool]
    | ok idx => simp [hr, except_bind_ok, h, Except.isOk, Except.toBool]

/-- Witness for C2: the empty list as Iteration Source. -/
theorem claim2_witness :
    (LoopStartSimple.loop_start (.list []) .none .none .none).isOk = false
      ∧ (LoopStartAdvanced.loop_start (.list []) .none []).isOk = false :=
  claim2_loop_start_empty_source_fatal (.list []) .none .none .none [] rfl

/-- C1: when the continuation condition is false, both while-loop
controllers return the current accumulator value(s) directly as a final
result and build no expansion fragment; the dependency walk and graph
rewrite are never reached. -/
theorem claim1_while_end_false_terminates (fuel : Nat) (flow : String × Nat)
    (next_index : Int) (acc1 acc2 : PyVal) (kwargs : List (String × PyVal))
    (dp : DynPrompt) (uid : String) :
    WhileLoopEndSimple.while_end fuel flow false next_index acc1 acc2 dp uid
        = .ok (.final (acc1, acc2))
      ∧ WhileLoopEndAdvanced.while_end fuel flow false next_index kwargs dp
            uid
          = .ok (.final ((List.range MAX_SLOTS).map
              (fun i => kwGet kwargs ("initial_value" ++ toString i)))) :=
  ⟨rfl, rfl⟩

theorem except_pure_bind {α β : Type} (x : α) (f : α → Except String β) :
    (pure x : Except String α) >>= f = f x := rfl

/-- C8: a Loop End whose flow token's origin node exists but is not the
matching Loop Start kind fails with an error before any fragment is
constructed — the error result carries no fragment and no partial graph
state. -/
theorem claim8_loop_end_wrong_origin_fatal (hgu : Bool)
    (flow : String × Nat) (r1 r2 : Option InputVal)
    (kwargs : List (String × InputVal)) (dp : DynPrompt) (uid : String)
    (n : NodeInfo) (hn : dp.getNode flow.1 = some n) :
    (n.class_type ≠ "ComfyAngel_LoopStartSimple" →
      ∃ msg, LoopEndSimple.loop_end hgu flow r1 r2 dp uid = .error msg)
      ∧ (n.class_type ≠ "ComfyAngel_LoopStartAdvanced" →
        ∃ msg, LoopEndAdvanced.loop_end hgu flow kwargs dp uid
          = .error msg) := by
  constructor
  · intro hcls
    cases hgu with
    | false => exact ⟨_, rfl⟩
    | true =>
      refine ⟨"flow must be connected from Loop Start node", ?_⟩
      unfold LoopEndSimple.loop_end
      simp [hn, except_pure_bind, hcls]
  · intro hcls
    cases hgu with
    | false => exact ⟨_, rfl⟩
    | true =>
      refine ⟨"flow must be connected from Loop Start (Advanced) node", ?_⟩
      unfold LoopEndAdvanced.loop_end
      simp [hn, except_pure_bind, hcls]

/-- Witness for C8: a flow token bound to a node of class
`"SomeOtherNode"`. -/
theorem claim8_witness :
    (∃ msg, LoopEndSimple.loop_end true ("ls", 0) Option.none Option.none
        wrongOriginGraph "E" = .error msg)
      ∧ (∃ msg, LoopEndAdvanced.loop_end true ("ls", 0) []
          wrongOriginGraph "E" = .error msg) :=
  ⟨(claim8_loop_end_wrong_origin_fatal true ("ls", 0) Option.none
      Option.none [] wrongOriginGraph "E" ⟨"SomeOtherNode", []⟩ rfl).1
      (by decide),
   (claim8_loop_end_wrong_origin_fatal true ("ls", 0) Option.none
      Option.none [] wrongOriginGraph "E" ⟨"SomeOtherNode", []⟩ rfl).2
      (by decide)⟩

/-- Helper: a fold whose step preserves the `dp` field preserves it. -/
theorem foldl_dp_eq {α : Type} (f : WalkSt → α → WalkSt)
    (h : ∀ s a, (f s a).dp = s.dp) :
    ∀ (l : List α) (s : WalkSt), (l.foldl f s).dp = s.dp := by
  intro l
  induction l with
  | nil => intro s; rfl
  | cons a t ih => intro s; rw [List.foldl_cons, ih, h]

/-- Helper: one walk step reads the graph but never modifies it. -/
theorem exploreStep_dp (recurse : String → WalkSt → WalkSt)
    (hrec : ∀ pid s, (recurse pid s).dp = s.dp) (nid : String)
    (st : WalkSt) (kv : String × InputVal) :
    (exploreStep recurse nid st kv).dp = st.dp := by
  simp only [exploreStep]
  split
  · rfl
  · split
    · rfl
    · split
      · rfl
      · repeat' split
        all_goals simp [hrec]

/-- Helper: `explore_dependencies` reads the graph but never modifies it. -/
theorem exploreDependencies_dp :
    ∀ (fuel : Nat) (nid : String) (st : WalkSt),
      (exploreDependencies fuel nid st).dp = st.dp := by
  intro fuel
  induction fuel with
  | zero => intro nid st; rfl
  | succ fuel ih =>
    intro nid st
    unfold exploreDependencies
    split
    · rfl
    · split
      · rfl
      · exact foldl_dp_eq _
          (fun s a => exploreStep_dp _ (fun pid s2 => ih pid s2) nid s a)
          _ st

/-- Helper: folding the step function can only add non-boundary ids to the
parent list. -/
theorem foldl_parents_sub {α : Type} (f : WalkSt → α → WalkSt)
    (hdp : ∀ s a, (f s a).dp = s.dp)
    (hpar : ∀ s a p, p ∈ (f s a).parents →
      p ∈ s.parents ∨ isBoundaryNode s.dp p = false) :
    ∀ (l : List α) (s : WalkSt) (p : String),
      p ∈ (l.foldl f s).parents →
        p ∈ s.parents ∨ isBoundaryNode s.dp p = false := by
  intro l
  induction l with
  | nil => intro s p hp; exact Or.inl hp
  | cons a t ih =>
    intro s p hp
    rw [List.foldl_cons] at hp
    rcases ih (f s a) p hp with h | h
    · exact hpar s a p h
    · rw [hdp] at h
      exact Or.inr h

/-- Helper: one walk step appends only non-boundary display ids to the
parent list. -/
theorem exploreStep_parents (recurse : String → WalkSt → WalkSt)
    (hrec : ∀ pid s p, p ∈ (recurse pid s).parents →
      p ∈ s.parents ∨ isBoundaryNode s.dp p = false)
    (nid : String) (st : WalkSt) (kv : String × InputVal) (p : String)
    (hp : p ∈ (exploreStep recurse nid st kv).parents) :
    p ∈ st.parents ∨ isBoundaryNode st.dp p = false := by
  simp only [exploreStep] at hp
  split at hp
  · exact Or.inl hp
  · split at hp
    · exact Or.inl hp
    · rename_i pid slotNum hkv
      split at hp
      · exact Or.inl hp
      · rename_i dnode hget
        by_cases hb : (!strContains dnode.class_type "LoopEnd"
            && !strContains dnode.class_type "WhileLoopEnd") = true
        · rw [if_pos hb] at hp
          dsimp only at hp
          have hbnd :
              isBoundaryNode st.dp (st.dp.displayId pid) = false := by
            simp only [Bool.and_eq_true, Bool.not_eq_true'] at hb
            simp [isBoundaryNode, hget, hb.1, hb.2]
          have hstep :
              ∀ q, q ∈ st.parents ++ [st.dp.displayId pid] →
                q ∈ st.parents ∨ isBoundaryNode st.dp q = false := by
            intro q hq
            rcases List.mem_append.mp hq with h | h
            · exact Or.inl h
            · rcases List.mem_singleton.mp h with rfl
              exact Or.inr hbnd
          by_cases hhas : upstreamHas st.upstream pid = true
          · rw [if_pos hhas] at hp
            split at hp <;> exact hstep p hp
          · rw [if_neg hhas] at hp
            have hp2 : p ∈ (recurse pid
                { st with
                  parents := st.parents ++ [st.dp.displayId pid],
                  upstream := st.upstream ++ [(pid, [])] }).parents := by
              split at hp <;> exact hp
            rcases hrec pid _ p hp2 with h | h
            · exact hstep p h
            · exact Or.inr h
        · rw [if_neg hb] at hp
          by_cases hhas : upstreamHas st.upstream pid = true
          · rw [if_pos hhas] at hp
            split at hp <;> exact Or.inl hp
          · rw [if_neg hhas] at hp
            have hp2 : p ∈ (recurse pid
                { st with
                  upstream := st.upstream ++ [(pid, [])] }).parents := by
              split at hp <;> exact hp
            rcases hrec pid _ p hp2 with h | h
            · exact Or.inl h
            · exact Or.inr h

/-- Helper: every id the backward walk adds to the parent list is a
non-boundary node. -/
theorem exploreDependencies_parents :
    ∀ (fuel : Nat) (nid : String) (st : WalkSt) (p : String),
      p ∈ (exploreDependencies fuel nid st).parents →
        p ∈ st.parents ∨ isBoundaryNode st.dp p = false := by
  intro fuel
  induction fuel with
  | zero => intro nid st p hp; exact Or.inl hp
  | succ fuel ih =>
    intro nid st p hp
    unfold exploreDependencies at hp
    split at hp
    · exact Or.inl hp
    · split at hp
      · exact Or.inl hp
      · exact foldl_parents_sub _
          (fun s a => exploreStep_dp _
            (fun pid s2 => exploreDependencies_dp fuel pid s2) nid s a)
          (fun s a q hq => exploreStep_parents _
            (fun pid s2 q2 hq2 => ih pid s2 q2 hq2) nid s a q hq)
          _ st p hp

/-- C3 counterexample: walking backward from `W` in `boundaryProbeGraph`,
the boundary producer `B` (class contains "LoopEnd") is not recorded as a
parent — but the walker does walk into `B`'s input links: `B`'s own
producer `X` is recorded both in `parent_ids` and in the `upstream`
adjacency. -/
theorem claim3_counterexample :
    (exploreDependencies 4 "W"
        ⟨boundaryProbeGraph, [], [], Option.none⟩).parents = ["X"]
      ∧ upstreamHas (exploreDependencies 4 "W"
          ⟨boundaryProbeGraph, [], [], Option.none⟩).upstream "X" = true := by
  constructor <;> rfl

/-- C3 amended: during the backward walk a producer whose displayed class
marks a loop-terminal controller is never recorded in `parent_ids` (first
conjunct, over every graph, fuel and start state) — but it is NOT treated
as an opaque boundary: the walk still recurses into its input links, as
the probe graph shows (`B` is walked into, so `X` enters `parent_ids` and
`B`'s producer edge enters `upstream`). -/
theorem claim3_amended :
    (∀ (fuel : Nat) (nid : String) (st : WalkSt) (p : String),
      p ∈ (exploreDependencies fuel nid st).parents →
        p ∈ st.parents ∨ isBoundaryNode st.dp p = false)
      ∧ (exploreDependencies 4 "W"
          ⟨boundaryProbeGraph, [], [], Option.none⟩).parents.contains "X"
            = true
      ∧ upstreamHas (exploreDependencies 4 "W"
          ⟨boundaryProbeGraph, [], [], Option.none⟩).upstream "B" = true :=
  ⟨exploreDependencies_parents, by rfl, by rfl⟩

/-- Witness for the amended C3, applying its general conjunct to the probe
graph: the id `X` recorded by the walk is a non-boundary node. -/
theorem claim3_amended_witness :
    "X" ∈ (⟨boundaryProbeGraph, [], [], Option.none⟩ : WalkSt).parents
      ∨ isBoundaryNode
          (⟨boundaryProbeGraph, [], [], Option.none⟩ : WalkSt).dp "X"
        = false :=
  claim3_amended.1 4 "W" ⟨boundaryProbeGraph, [], [], Option.none⟩ "X"
    (by decide)

/-- C9: the Dependency-Closure Walker is idempotent: the backward walk
leaves the graph unmodified, so running the walk plus contained-set
collection a second time, against the graph state left behind by the
first run, yields an identical closure set. -/
theorem claim9_walker_idempotent (dp : DynPrompt) (fuel : Nat)
    (uid startId : String) :
    (exploreDependencies fuel uid ⟨dp, [], [], Option.none⟩).dp = dp
      ∧ walkerClosure
            (exploreDependencies fuel uid ⟨dp, [], [], Option.none⟩).dp
            fuel uid startId
          = walkerClosure dp fuel uid startId := by
  have h := exploreDependencies_dp fuel uid ⟨dp, [], [], Option.none⟩
  exact ⟨h, by rw [h]⟩

/-- Helper: `pySeqGet` succeeds on an in-range non-negative index. -/
theorem pySeqGet_ok (xs : List PyVal) (i : Int) (h0 : 0 ≤ i)
    (hlt : i < (xs.length : Int)) :
    pySeqGet xs i = .ok (xs.getD i.toNat .none) := by
  simp only [pySeqGet]
  rw [if_neg (by omega : ¬ i < 0), if_pos ⟨h0, hlt⟩]

/-- Helper: on a source of length at least 1 and a non-negative index,
fetching at the clamped position `min idx (total - 1)` always succeeds. -/
theorem get_item_clamped_ok (items : PyVal) (idx : Int) (hidx : 0 ≤ idx)
    (htot : 1 ≤ get_items_length items) :
    ∃ v, get_item_at_index items
        (min idx ((get_items_length items : Int) - 1)) = .ok v := by
  cases items with
  | none => exact absurd htot (by decide)
  | tensor t =>
    by_cases hd : t.dim = 0
    · refine ⟨.tensor t, ?_⟩
      simp [get_item_at_index, hd]
    · refine ⟨.tensor (t.slice0
        (min idx ((get_items_length (.tensor t) : Int) - 1))
        (min idx ((get_items_length (.tensor t) : Int) - 1) + 1)), ?_⟩
      simp [get_item_at_index, hd]
  | list xs =>
    have hlen : 1 ≤ xs.length := htot
    have hbound : min idx ((xs.length : Int) - 1) < (xs.length : Int) :=
      lt_of_le_of_lt (min_le_right _ _) (by omega)
    refine ⟨xs.getD (min idx ((xs.length : Int) - 1)).toNat .none, ?_⟩
    simp only [get_item_at_index, get_items_length]
    rw [if_neg (by omega : ¬ xs.length = 0),
      pySeqGet_ok xs _ (le_min hidx (by omega)) hbound]
  | tuple xs =>
    have hlen : 1 ≤ xs.length := htot
    have hbound : min idx ((xs.length : Int) - 1) < (xs.length : Int) :=
      lt_of_le_of_lt (min_le_right _ _) (by omega)
    refine ⟨xs.getD (min idx ((xs.length : Int) - 1)).toNat .none, ?_⟩
    simp only [get_item_at_index, get_items_length]
    rw [if_neg (by omega : ¬ xs.length = 0),
      pySeqGet_ok xs _ (le_min hidx (by omega)) hbound]
  | int n => exact ⟨_, rfl⟩
  | bool b => exact ⟨_, rfl⟩
  | str s => exact ⟨_, rfl⟩

/-- C4: with a source of computed length at least 1 and a non-negative
resumption index, Loop Start fetches the produced item at the clamped
position `min(index, total - 1)`, reports the raw (non-clamped) index as
its index output (Advanced's `index` output, Simple's packed flow-state
index), and Advanced's `is_last` output equals `(index >= total - 1)`. -/
theorem claim4_loop_start_clamp_and_raw_index
    (items _index _acc1 _acc2 : PyVal) (kwargs : List (String × PyVal))
    (idx : Int) (hres : resolveIndex _index = .ok idx) (hidx : 0 ≤ idx)
    (htot : 1 ≤ get_items_length (unwrapItems items)) :
    (∃ out, LoopStartAdvanced.loop_start items _index kwargs = .ok out
      ∧ out.index = idx
      ∧ out.is_last
          = decide
            (idx ≥ (get_items_length (unwrapItems items) : Int) - 1)
      ∧ get_item_at_index (unwrapItems items)
            (min idx ((get_items_length (unwrapItems items) : Int) - 1))
          = .ok out.item)
    ∧ (∃ sout, LoopStartSimple.loop_start items _index _acc1 _acc2
          = .ok sout
      ∧ sout.flow.index = idx
      ∧ get_item_at_index (unwrapItems items)
            (min idx ((get_items_length (unwrapItems items) : Int) - 1))
          = .ok sout.item) := by
  obtain ⟨v, hv⟩ := get_item_clamped_ok (unwrapItems items) idx hidx htot
  have hne : ¬ get_items_length (unwrapItems items) = 0 := by omega
  constructor
  · refine ⟨⟨"loop_flow", v, idx, get_items_length (unwrapItems items),
      decide (idx ≥ (get_items_length (unwrapItems items) : Int) - 1),
      (List.range MAX_SLOTS).map (fun i =>
        slotUnwrap (kwGet kwargs ("initial_value" ++ toString i)))⟩,
      ?_, rfl, rfl, hv⟩
    simp only [LoopStartAdvanced.loop_start]
    rw [hres, except_bind_ok, if_neg hne, hv]
    rfl
  · refine ⟨⟨⟨idx, listUnwrap _acc1, listUnwrap _acc2⟩, v⟩, ?_, rfl, hv⟩
    simp only [LoopStartSimple.loop_start]
    rw [hres, except_bind_ok, if_neg hne, hv]
    rfl

/-- Witness for C4: source `["a", "b"]` with resumption index 5 (past the
end): the item is fetched at the clamped position `min 5 1 = 1`, while the
reported index stays 5 and `is_last` is true. -/
theorem claim4_witness :
    (∃ out, LoopStartAdvanced.loop_start (.list [.str "a", .str "b"])
        (.int 5) [] = .ok out
      ∧ out.index = 5
      ∧ out.is_last = decide ((5 : Int) ≥ (2 : Int) - 1)
      ∧ get_item_at_index (unwrapItems (.list [.str "a", .str "b"]))
            (min 5 ((2 : Int) - 1))
          = .ok out.item)
    ∧ (∃ sout, LoopStartSimple.loop_start (.list [.str "a", .str "b"])
        (.int 5) .none .none = .ok sout
      ∧ sout.flow.index = 5
      ∧ get_item_at_index (unwrapItems (.list [.str "a", .str "b"]))
            (min 5 ((2 : Int) - 1))
          = .ok sout.item) :=
  claim4_loop_start_clamp_and_raw_index (.list [.str "a", .str "b"])
    (.int 5) .none .none [] 5 rfl (by decide) (by decide)

end ComfyAngel
